import Mathlib

/-!
Verification of the movie-scraping pipeline (multithreading.py): a shallow
embedding of the markup extractor, link collector, sink gate and dispatch
sizing, with theorems settling the specified properties.
-/

namespace Scraper

mutual
/-- An HTML node: an element with a tag name, attribute list and children,
or a text node. `NodeList` is a bespoke list so that recursion over the
tree stays structural. -/
inductive Node where
  | elem (tag : String) (attrs : List (String × String)) (children : NodeList)
  | text (s : String)

inductive NodeList where
  | nil
  | cons (head : Node) (tail : NodeList)
end

/-- Build a `NodeList` from a plain list, for writing markup literals. -/
def nlist : List Node → NodeList
  | [] => .nil
  | c :: cs => .cons c (nlist cs)

/-- The direct children of a node, as a plain list. -/
def NodeList.toList : NodeList → List Node
  | .nil => []
  | .cons c cs => c :: cs.toList

mutual
/-- All descendants of a node in document (pre-)order, the universe that
BeautifulSoup `find` and `find_all` search (the node itself excluded). -/
def Node.descend : Node → List Node
  | .text _ => []
  | .elem _ _ cs => NodeList.descendList cs

def NodeList.descendList : NodeList → List Node
  | .nil => []
  | .cons c cs => c :: (Node.descend c ++ NodeList.descendList cs)
end

def Node.childrenList : Node → List Node
  | .elem _ _ cs => cs.toList
  | .text _ => []

def Node.attrsList : Node → List (String × String)
  | .elem _ a _ => a
  | .text _ => []

def Node.textOf : Node → Option String
  | .text s => some s
  | .elem _ _ _ => none

/-- BeautifulSoup `get_text`: concatenation of every text node in the
subtree, in document order. -/
def Node.getText (n : Node) : String :=
  String.join ((n :: n.descend).filterMap Node.textOf)

/-- BeautifulSoup `find`: first descendant satisfying the predicate, in
document order. -/
def Node.find (n : Node) (p : Node → Bool) : Option Node :=
  n.descend.find? p

/-- BeautifulSoup `find_all`: every descendant satisfying the predicate, in
document order. -/
def Node.findAll (n : Node) (p : Node → Bool) : List Node :=
  n.descend.filter p

/-- Attribute lookup on a tag (`tag[key]` access and keyword filters). -/
def attrLookup (a : List (String × String)) (key : String) : Option String :=
  (a.find? (fun p => p.1 == key)).map (fun p => p.2)

def isSpaceChar (c : Char) : Bool :=
  c == ' ' || c == '\t' || c == '\n' || c == '\r'

/-- Python `str.strip()`: drop whitespace from both ends. -/
def pyStrip (s : String) : String :=
  String.mk (((s.data.dropWhile isSpaceChar).reverse.dropWhile isSpaceChar).reverse)

/-- Split a multi-valued attribute into its whitespace-separated tokens. -/
def classTokens (s : String) : List String :=
  (s.data.splitOnP isSpaceChar).map String.mk

/-- BeautifulSoup attribute filtering: `class` is multi-valued, so the
query value may match the whole attribute or any space-separated token;
other attributes match exactly. -/
def attrMatch (a : List (String × String)) (key value : String) : Bool :=
  match attrLookup a key with
  | none => false
  | some v => if key == "class" then v == value || (classTokens v).contains value
              else v == value

/-- Filter for `find(tag)`. -/
def isTag (t : String) : Node → Bool
  | .elem tg _ _ => tg == t
  | .text _ => false

/-- Filter for `find(tag, attrs=\x7bkey: value\x7d)`. -/
def tagWithAttr (t key value : String) : Node → Bool
  | .elem tg a _ => tg == t && attrMatch a key value
  | .text _ => false

def beginsWith : List Char → List Char → Bool
  | _, [] => true
  | [], _ :: _ => false
  | c :: cs, d :: ds => c == d && beginsWith cs ds

def hasSubList : List Char → List Char → Bool
  | [], pat => pat.isEmpty
  | c :: cs, pat => beginsWith (c :: cs) pat || hasSubList cs pat

/-- Python substring test `pat in s`. -/
def containsSubstr (s pat : String) : Bool :=
  hasSubList s.data pat.data

/-- Filter for line 59: `find(a, href=lambda href: href and releaseinfo in href)`:
an anchor whose href exists, is nonempty, and contains the marker. -/
def isReleaseLink : Node → Bool
  | .elem tg a _ =>
      tg == "a" &&
        (match attrLookup a "href" with
         | some h => h != "" && containsSubstr h "releaseinfo"
         | none => false)
  | .text _ => false

/-- The four-field Record extracted for one movie. -/
structure Record where
  title : Option String
  releaseDate : Option String
  rating : Option String
  synopsis : Option String
deriving DecidableEq, Repr

/-- The Python exceptions the script can raise. -/
inductive PyErr where
  | attributeError
  | typeError
  | keyError
  | valueError
  | transportError
deriving DecidableEq, Repr

/-- Python truthiness of an optional string: `None` and the empty string
are falsy; this is what `all([title, date, rating, plot_text])` tests. -/
def truthy : Option String → Bool
  | some s => s != ""
  | none => false

def allNullRecord : Record :=
  { title := none, releaseDate := none, rating := none, synopsis := none }

/-- Lines 54 to 56: `title_tag = target_div.find(h1)`; if found (a tag is
always truthy), `title = title_tag.find(span).get_text()` — when the h1
holds no span this calls `get_text` on `None` and raises AttributeError. -/
def computeTitle (target_div : Node) : Except PyErr (Option String) :=
  match target_div.find (isTag "h1") with
  | none => .ok none
  | some title_tag =>
      match title_tag.find (isTag "span") with
      | none => .error .attributeError
      | some sp => .ok (some sp.getText)

/-- Lines 40 to 77 of `extract_movie_details`, after the page is parsed:
locate the section, take the second direct child div, extract the four
fields, and gate the CSV write on Python truthiness of all four. Returns
the record together with whether a row was written. -/
def extractDetails (movie_soup : Node) : Except PyErr (Record × Bool) :=
  match movie_soup.find (tagWithAttr "section" "class" "ipc-page-section") with
  | none => .ok (allNullRecord, false)
  | some page_section =>
      match (page_section.childrenList.filter (isTag "div"))[1]? with
      | none => .ok (allNullRecord, false)
      | some target_div =>
          match computeTitle target_div with
          | .error e => .error e
          | .ok title =>
              let date := (target_div.find isReleaseLink).map
                (fun a => pyStrip a.getText)
              let rating := (movie_soup.find
                (tagWithAttr "div" "data-testid"
                  "hero-rating-bar__aggregate-rating__score")).map Node.getText
              let plot := (movie_soup.find
                (tagWithAttr "span" "data-testid" "plot-xs_to_m")).map
                (fun n => pyStrip n.getText)
              let r : Record :=
                { title := title, releaseDate := date, rating := rating,
                  synopsis := plot }
              .ok (r, truthy r.title && truthy r.releaseDate &&
                      truthy r.rating && truthy r.synopsis)

/-- Transport-level failures `requests.get` can raise. -/
inductive TransportErr where
  | connectionError
  | timeout
deriving DecidableEq, Repr

/-- The ambient inputs of one detail task: the value drawn by
`random.uniform(0, 0.2)` for the pacing sleep on line 36 (scaled to an
integer number of milliseconds), and what `requests.get` returns for the
address on line 37 — either the page markup or a transport failure. -/
structure TaskEnv where
  delay : Nat
  page : Except TransportErr Node

/-- Lines 34 to 77, `extract_movie_details` as one task: sleep, GET, parse,
extract and gate. A transport failure on the GET raises out of the
function body. -/
def extract_movie_details (env : TaskEnv) : Except PyErr (Record × Bool) :=
  match env.page with
  | .error _ => .error .transportError
  | .ok movie_soup => extractDetails movie_soup

/-- What the dispatch pool observes of one task: `executor.map` stores a
raised exception in the returned future, and line 93 never consumes the
results, so exceptions are swallowed and only a completed task yields a
record. -/
def taskOutcome (env : TaskEnv) : Option (Record × Bool) :=
  (extract_movie_details env).toOption

/-- Line 93: `executor.map(extract_movie_details, movie_links)` with the
futures never inspected — one outcome per task, exceptions absorbed. -/
def runPool (envs : List TaskEnv) : List (Option (Record × Bool)) :=
  envs.map taskOutcome

/-- Line 29. -/
def MAX_THREADS : Nat := 100

/-- Lines 84 to 88, the link collection of `extract_movies`: locate the
chart container and its list (an absent container or list raises
AttributeError on the `None` that `find` returned), then for every list
item take its first anchor (a missing anchor makes `None[href]` raise
TypeError) and its href (a missing attribute raises KeyError), prefixing
the fixed origin. -/
def collectLinks (soup : Node) : Except PyErr (List String) :=
  match soup.find (tagWithAttr "div" "data-testid" "chart-layout-main-column") with
  | none => .error .attributeError
  | some container =>
      match container.find (isTag "ul") with
      | none => .error .attributeError
      | some movies_table =>
          (movies_table.findAll (isTag "li")).mapM (fun movie =>
            match movie.find (isTag "a") with
            | none => .error PyErr.typeError
            | some a =>
                match attrLookup a.attrsList "href" with
                | none => .error PyErr.keyError
                | some href => .ok ("https://imdb.com" ++ href))

/-- Modelled library contract: `concurrent.futures.ThreadPoolExecutor` is
external collaborator code; its documented constructor rejects a
non-positive `max_workers` with ValueError. -/
def mkExecutor (max_workers : Nat) : Except PyErr Unit :=
  if max_workers == 0 then .error .valueError else .ok ()

/-- Lines 82 to 93, `extract_movies`: collect the links, size the pool as
`min(MAX_THREADS, len(movie_links))`, and construct the executor. Returns
the links and the worker count on success. -/
def extract_movies (soup : Node) : Except PyErr (List String × Nat) :=
  match collectLinks soup with
  | .error e => .error e
  | .ok movie_links =>
      let threads := min MAX_THREADS movie_links.length
      match mkExecutor threads with
      | .error e => .error e
      | .ok _ => .ok (movie_links, threads)

/-- First anchor target of a list item, when both exist. -/
def firstHref (li : Node) : Option String :=
  (li.find (isTag "a")).bind (fun a => attrLookup a.attrsList "href")

/-- Whether a result is a raised exception. -/
def isErr {α : Type} : Except PyErr α → Bool
  | .error _ => true
  | .ok _ => false

/-- The condition under which the extractor raises: the title chain finds
an h1 inside the target div, but the h1 holds no span. -/
def titleChainRaises (movie_soup : Node) : Bool :=
  match movie_soup.find (tagWithAttr "section" "class" "ipc-page-section") with
  | none => false
  | some page_section =>
      match (page_section.childrenList.filter (isTag "div"))[1]? with
      | none => false
      | some target_div =>
          match target_div.find (isTag "h1") with
          | none => false
          | some title_tag => (title_tag.find (isTag "span")).isNone

/-- Seed markup with no chart container at all. -/
def bareHtml : Node := .elem "html" [] (nlist [])

/-- Chart list with three items, each holding one anchor. -/
def chartList3 : Node :=
  .elem "ul" [] (nlist [
    .elem "li" [] (nlist [
      .elem "a" [("href", "/title/tt0000001/")] (nlist [.text "Movie A"])]),
    .elem "li" [] (nlist [
      .elem "a" [("href", "/title/tt0000002/")] (nlist [.text "Movie B"])]),
    .elem "li" [] (nlist [
      .elem "a" [("href", "/title/tt0000003/")] (nlist [.text "Movie C"])])])

def chartDiv3 : Node :=
  .elem "div" [("data-testid", "chart-layout-main-column")] (nlist [chartList3])

/-- Seed markup with a chart container holding three linked items. -/
def threeItemHtml : Node := .elem "html" [] (nlist [chartDiv3])

def links3 : List String :=
  ["https://imdb.com/title/tt0000001/",
   "https://imdb.com/title/tt0000002/",
   "https://imdb.com/title/tt0000003/"]

/-- Seed markup whose chart container holds an empty list. -/
def emptyChartHtml : Node :=
  .elem "html" [] (nlist [
    .elem "div" [("data-testid", "chart-layout-main-column")] (nlist [
      .elem "ul" [] (nlist [])])])

def noLinkItem : Node := .elem "li" [] (nlist [.text "no link here"])

def noLinkList : Node := .elem "ul" [] (nlist [noLinkItem])

def noLinkDiv : Node :=
  .elem "div" [("data-testid", "chart-layout-main-column")] (nlist [noLinkList])

/-- Seed markup whose single list item holds no anchor. -/
def noLinkHtml : Node := .elem "html" [] (nlist [noLinkDiv])

/-- Detail markup whose h1 exists but holds no span. -/
def titleBugHtml : Node :=
  .elem "html" [] (nlist [
    .elem "section" [("class", "ipc-page-section")] (nlist [
      .elem "div" [] (nlist []),
      .elem "div" [] (nlist [
        .elem "h1" [] (nlist [.text "Some Movie"])])])])

/-- Detail markup whose title span is empty while the other three fields
are present and nonempty. -/
def emptyTitleHtml : Node :=
  .elem "html" [] (nlist [
    .elem "section" [("class", "ipc-page-section")] (nlist [
      .elem "div" [] (nlist []),
      .elem "div" [] (nlist [
        .elem "h1" [] (nlist [.elem "span" [] (nlist [])]),
        .elem "a" [("href", "/title/tt0000001/releaseinfo")] (nlist [
          .text "May 1, 2020"])])]),
    .elem "div" [("data-testid", "hero-rating-bar__aggregate-rating__score")]
      (nlist [.text "8.5"]),
    .elem "span" [("data-testid", "plot-xs_to_m")] (nlist [.text "A plot."])])

/-- Detail markup with all four fields present and nonempty. -/
def goodHtml : Node :=
  .elem "html" [] (nlist [
    .elem "section" [("class", "ipc-page-section")] (nlist [
      .elem "div" [] (nlist []),
      .elem "div" [] (nlist [
        .elem "h1" [] (nlist [.elem "span" [] (nlist [.text "The Movie"])]),
        .elem "a" [("href", "/title/tt0000002/releaseinfo")] (nlist [
          .text " June 2, 2021 "])])]),
    .elem "div" [("data-testid", "hero-rating-bar__aggregate-rating__score")]
      (nlist [.text "9.1"]),
    .elem "span" [("data-testid", "plot-xs_to_m")] (nlist [.text "Great plot."])])

def goodRecord : Record :=
  { title := some "The Movie", releaseDate := some "June 2, 2021",
    rating := some "9.1", synopsis := some "Great plot." }

/-- State of the dispatch pool: which task indices are currently running
and which have reached a terminal state. -/
structure PoolState where
  running : Finset Nat
  done : Finset Nat

/-- Scheduling of a `ThreadPoolExecutor` with `workers` worker threads over
`L` tasks: a pending task may start only while fewer than `workers` tasks
run; a running task may finish. -/
inductive PoolStep (workers L : Nat) : PoolState → PoolState → Prop where
  | start (i : Nat) (s : PoolState) : i < L → i ∉ s.running → i ∉ s.done →
      s.running.card < workers →
      PoolStep workers L s ⟨insert i s.running, s.done⟩
  | finish (i : Nat) (s : PoolState) : i ∈ s.running →
      PoolStep workers L s ⟨s.running.erase i, insert i s.done⟩

/-- Pool states reachable from the idle pool. -/
inductive Reaches (workers L : Nat) : PoolState → Prop where
  | init : Reaches workers L ⟨∅, ∅⟩
  | step {s t : PoolState} : Reaches workers L s → PoolStep workers L s t →
      Reaches workers L t

theorem reaches_card_le (workers L : Nat) (s : PoolState)
    (h : Reaches workers L s) : s.running.card ≤ workers := by
  induction h with
  | init => simp
  | step hr hstep ih =>
      cases hstep with
      | start => exact (Finset.card_insert_le _ _).trans (by assumption)
      | finish => exact le_trans Finset.card_erase_le ih

theorem exbind_ok {α β : Type} (a : α) (f : α → Except PyErr β) :
    (Except.ok a >>= f) = f a := rfl

theorem exbind_err {α β : Type} (e : PyErr) (f : α → Except PyErr β) :
    ((Except.error e : Except PyErr α) >>= f) = Except.error e := rfl

theorem mapM_ok_of_map {α β : Type} (f : α → Except PyErr β) (g : α → β)
    (l : List α) (h : ∀ a ∈ l, f a = Except.ok (g a)) :
    l.mapM f = Except.ok (l.map g) := by
  induction l with
  | nil => rfl
  | cons x xs ih =>
      rw [List.mapM_cons, h x (List.mem_cons_self x xs),
        ih (fun a ha => h a (List.mem_cons_of_mem x ha))]
      rfl

theorem mapM_isErr_of_mem {α β : Type} (f : α → Except PyErr β) (l : List α)
    (a : α) (ha : a ∈ l) (he : isErr (f a) = true) :
    isErr (l.mapM f) = true := by
  induction l with
  | nil => cases ha
  | cons x xs ih =>
      rw [List.mapM_cons]
      rcases List.mem_cons.mp ha with h | h
      · subst h
        cases hfx : f a with
        | error e => rfl
        | ok b => rw [hfx] at he; simp [isErr] at he
      · cases hfx : f x with
        | error e => rfl
        | ok b =>
            rw [exbind_ok]
            cases hxs : xs.mapM f with
            | error e => rfl
            | ok bs =>
                have hbad := ih h
                rw [hxs] at hbad
                simp [isErr] at hbad

theorem truthy_eq_true_iff (o : Option String) :
    truthy o = true ↔ ∃ s, o = some s ∧ s ≠ "" := by
  cases o with
  | none => simp [truthy]
  | some s => simp [truthy, bne_iff_ne]

/-- C5: the Link Collector fails fast, propagating an error to the caller,
whenever the listing container or its contained list is absent from the
seed markup; `extract_movies` stops at that error, so no tasks are
dispatched. -/
theorem seed_structural_absence_fatal (soup : Node)
    (h : soup.find (tagWithAttr "div" "data-testid" "chart-layout-main-column") = none ∨
      ∃ c, soup.find (tagWithAttr "div" "data-testid" "chart-layout-main-column") = some c ∧
        c.find (isTag "ul") = none) :
    collectLinks soup = Except.error PyErr.attributeError ∧
      extract_movies soup = Except.error PyErr.attributeError := by
  have hcl : collectLinks soup = Except.error PyErr.attributeError := by
    rcases h with h | ⟨c, hc, hul⟩
    · unfold collectLinks
      rw [h]
    · unfold collectLinks
      simp only [hc, hul]
  refine ⟨hcl, ?_⟩
  unfold extract_movies
  rw [hcl]

/-- Witness for C5 at a seed markup with no chart container. -/
theorem seed_structural_absence_fatal_witness :
    bareHtml.find (tagWithAttr "div" "data-testid" "chart-layout-main-column") = none ∧
      (collectLinks bareHtml = Except.error PyErr.attributeError ∧
        extract_movies bareHtml = Except.error PyErr.attributeError) :=
  ⟨rfl, seed_structural_absence_fatal bareHtml (Or.inl rfl)⟩

/-- C9: when the listing container and list are present but hold zero
items, the collector returns an empty address list, the pool size is
computed as `min(100, 0) = 0`, and constructing the zero-worker pool
raises ValueError instead of completing as a no-op run. -/
theorem empty_listing_raises (soup : Node)
    (h : collectLinks soup = Except.ok []) :
    extract_movies soup = Except.error PyErr.valueError := by
  unfold extract_movies
  rw [h]
  rfl

/-- Witness for C9 at a seed markup whose chart list has no items. -/
theorem empty_listing_raises_witness :
    collectLinks emptyChartHtml = Except.ok [] ∧
      extract_movies emptyChartHtml = Except.error PyErr.valueError :=
  ⟨rfl, empty_listing_raises emptyChartHtml rfl⟩

/-- C10: a single list item without a link element aborts the entire Link
Collector with an error, and with it the whole run, instead of the item
being skipped. -/
theorem item_without_link_aborts (soup c tbl li : Node)
    (hc : soup.find (tagWithAttr "div" "data-testid" "chart-layout-main-column") = some c)
    (ht : c.find (isTag "ul") = some tbl)
    (hmem : li ∈ tbl.findAll (isTag "li"))
    (hno : li.find (isTag "a") = none) :
    isErr (collectLinks soup) = true ∧ isErr (extract_movies soup) = true := by
  have h1 : isErr (collectLinks soup) = true := by
    unfold collectLinks
    simp only [hc, ht]
    apply mapM_isErr_of_mem _ _ li hmem
    simp [isErr, hno]
  refine ⟨h1, ?_⟩
  unfold extract_movies
  cases hcl : collectLinks soup with
  | error e => rfl
  | ok ls => rw [hcl] at h1; simp [isErr] at h1

/-- Witness for C10 at a seed whose single item holds no anchor. -/
theorem item_without_link_aborts_witness :
    noLinkHtml.find (tagWithAttr "div" "data-testid" "chart-layout-main-column") = some noLinkDiv ∧
      noLinkDiv.find (isTag "ul") = some noLinkList ∧
      noLinkItem ∈ noLinkList.findAll (isTag "li") ∧
      noLinkItem.find (isTag "a") = none ∧
      (isErr (collectLinks noLinkHtml) = true ∧ isErr (extract_movies noLinkHtml) = true) :=
  ⟨rfl, rfl, List.mem_cons_self _ _, rfl,
    item_without_link_aborts noLinkHtml noLinkDiv noLinkList noLinkItem rfl rfl
      (List.mem_cons_self _ _) rfl⟩

/-- C6: when the listing container and list are present and every list
item has a first link carrying a target, the Link Collector returns one
absolute address per list item, each the fixed origin prefixed to that
target, in document order. -/
theorem collect_links_one_per_item (soup c tbl : Node)
    (hc : soup.find (tagWithAttr "div" "data-testid" "chart-layout-main-column") = some c)
    (ht : c.find (isTag "ul") = some tbl)
    (hall : ∀ li ∈ tbl.findAll (isTag "li"), (firstHref li).isSome = true) :
    collectLinks soup =
      Except.ok ((tbl.findAll (isTag "li")).map
        (fun li => "https://imdb.com" ++ (firstHref li).getD "")) := by
  unfold collectLinks
  simp only [hc, ht]
  apply mapM_ok_of_map
  intro li hli
  have h := hall li hli
  unfold firstHref at h ⊢
  cases hfa : li.find (isTag "a") with
  | none => rw [hfa] at h; simp at h
  | some a =>
      rw [hfa] at h
      simp only [Option.some_bind] at h ⊢
      cases hhref : attrLookup a.attrsList "href" with
      | none => rw [hhref] at h; simp at h
      | some href => simp

/-- Witness for C6 at a seed with three linked items. -/
theorem collect_links_one_per_item_witness :
    threeItemHtml.find (tagWithAttr "div" "data-testid" "chart-layout-main-column") = some chartDiv3 ∧
      chartDiv3.find (isTag "ul") = some chartList3 ∧
      (∀ li ∈ chartList3.findAll (isTag "li"), (firstHref li).isSome = true) ∧
      collectLinks threeItemHtml =
        Except.ok ((chartList3.findAll (isTag "li")).map
          (fun li => "https://imdb.com" ++ (firstHref li).getD "")) :=
  ⟨rfl, rfl, by decide,
    collect_links_one_per_item threeItemHtml chartDiv3 chartList3 rfl rfl (by decide)⟩

/-- C7: if the top-level content section is absent, or it has fewer than
two direct child divs, extraction returns the all-null Record and commits
nothing. -/
theorem missing_section_all_null (movie_soup : Node)
    (h : movie_soup.find (tagWithAttr "section" "class" "ipc-page-section") = none ∨
      ∃ sec, movie_soup.find (tagWithAttr "section" "class" "ipc-page-section") = some sec ∧
        (sec.childrenList.filter (isTag "div")).length < 2) :
    extractDetails movie_soup = Except.ok (allNullRecord, false) := by
  rcases h with h | ⟨sec, hsec, hlen⟩
  · unfold extractDetails
    rw [h]
  · have hnone : (sec.childrenList.filter (isTag "div"))[1]? = none :=
      List.getElem?_eq_none (by omega)
    unfold extractDetails
    simp only [hsec, hnone]

/-- Witness for C7 at a detail page with no content section. -/
theorem missing_section_all_null_witness :
    bareHtml.find (tagWithAttr "section" "class" "ipc-page-section") = none ∧
      extractDetails bareHtml = Except.ok (allNullRecord, false) :=
  ⟨rfl, missing_section_all_null bareHtml (Or.inl rfl)⟩

/-- C2 counterexample: on a page whose heading is present but holds no
inline span, extraction raises AttributeError instead of yielding a null
title, so the extractor is not total. -/
theorem heading_without_span_raises :
    extractDetails titleBugHtml = Except.error PyErr.attributeError := by rfl

/-- C2 amended: the parse phase raises exactly when the title chain finds
an h1 whose subtree holds no span; every other missing node along the
chain yields a null title without an error. -/
theorem extract_raises_iff_span_missing (movie_soup : Node) :
    isErr (extractDetails movie_soup) = titleChainRaises movie_soup := by
  unfold extractDetails titleChainRaises computeTitle
  rcases hsec : movie_soup.find (tagWithAttr "section" "class" "ipc-page-section") with _ | sec
  · rfl
  · rcases hdiv : (sec.childrenList.filter (isTag "div"))[1]? with _ | td
    · simp [isErr, hdiv]
    · rcases hh1 : td.find (isTag "h1") with _ | h1
      · simp [isErr, hdiv, hh1]
      · rcases hsp : h1.find (isTag "span") with _ | sp
        · simp [isErr, hdiv, hh1, hsp]
        · simp [isErr, hdiv, hh1, hsp]

/-- C1 counterexample: a record whose four fields are all non-null, with an
empty-string title, is not committed, refuting the claim that commitment
holds if and only if all four fields are non-null. -/
theorem nonnull_record_not_committed :
    extractDetails emptyTitleHtml =
      Except.ok (⟨some "", some "May 1, 2020", some "8.5", some "A plot."⟩, false) ∧
      (some "" : Option String).isSome = true := ⟨by rfl, rfl⟩

/-- Helper: any successful extraction commits exactly the Python-truthiness
conjunction of its four fields. -/
theorem extract_commit_flag (movie_soup : Node) (r : Record) (c : Bool)
    (h : extractDetails movie_soup = Except.ok (r, c)) :
    c = (truthy r.title && truthy r.releaseDate && truthy r.rating &&
      truthy r.synopsis) := by
  unfold extractDetails at h
  split at h
  · simp only [Except.ok.injEq, Prod.mk.injEq] at h
    obtain ⟨hr, hc⟩ := h
    subst hr hc
    rfl
  · split at h
    · simp only [Except.ok.injEq, Prod.mk.injEq] at h
      obtain ⟨hr, hc⟩ := h
      subst hr hc
      rfl
    · split at h
      · cases h
      · simp only [Except.ok.injEq, Prod.mk.injEq] at h
        obtain ⟨hr, hc⟩ := h
        subst hr hc
        rfl

/-- C1 amended: the Sink Gate writes a row exactly when all four fields are
non-null and nonempty (Python truthiness), not merely non-null. -/
theorem commit_iff_all_truthy (movie_soup : Node) (r : Record) (c : Bool)
    (h : extractDetails movie_soup = Except.ok (r, c)) :
    c = true ↔ ((∃ s, r.title = some s ∧ s ≠ "") ∧
      (∃ s, r.releaseDate = some s ∧ s ≠ "") ∧
      (∃ s, r.rating = some s ∧ s ≠ "") ∧
      (∃ s, r.synopsis = some s ∧ s ≠ "")) := by
  rw [extract_commit_flag movie_soup r c h]
  simp only [Bool.and_eq_true, truthy_eq_true_iff]
  tauto

/-- Witness for the amended C1 at a page whose four fields are present and
nonempty. -/
theorem commit_iff_all_truthy_witness :
    extractDetails goodHtml = Except.ok (goodRecord, true) ∧
      (true = true ↔ ((∃ s, goodRecord.title = some s ∧ s ≠ "") ∧
        (∃ s, goodRecord.releaseDate = some s ∧ s ≠ "") ∧
        (∃ s, goodRecord.rating = some s ∧ s ≠ "") ∧
        (∃ s, goodRecord.synopsis = some s ∧ s ≠ ""))) :=
  ⟨by rfl, commit_iff_all_truthy goodHtml goodRecord true (by rfl)⟩

/-- C3 counterexample: a transport failure does not produce an all-null
Record; it raises out of the task function body. -/
theorem transport_failure_raises :
    extract_movie_details { delay := 0, page := Except.error TransportErr.connectionError } =
      Except.error PyErr.transportError := by rfl

/-- C3 amended: a transport failure makes the task raise; the pool machinery
captures the exception, so that task commits nothing, and every task's
outcome is a function of its own inputs alone, leaving siblings
unaffected. -/
theorem transport_failure_isolated (envs : List TaskEnv) (i : Nat) (e : TransportErr)
    (hi : i < envs.length) (hpage : envs[i].page = Except.error e) :
    extract_movie_details envs[i] = Except.error PyErr.transportError ∧
      (runPool envs)[i]? = some none ∧
      ∀ j : Nat, (runPool envs)[j]? = (envs[j]?).map taskOutcome := by
  have htask : extract_movie_details envs[i] = Except.error PyErr.transportError := by
    unfold extract_movie_details
    rw [hpage]
  refine ⟨htask, ?_, ?_⟩
  · unfold runPool
    rw [List.getElem?_map, List.getElem?_eq_getElem hi]
    show some (taskOutcome envs[i]) = some none
    unfold taskOutcome
    rw [htask]
    rfl
  · intro j
    unfold runPool
    rw [List.getElem?_map]

/-- Witness for the amended C3: one failing task next to one succeeding
task. -/
theorem transport_failure_isolated_witness :
    (0 : Nat) < ([⟨0, Except.error TransportErr.connectionError⟩,
        ⟨1, Except.ok goodHtml⟩] : List TaskEnv).length ∧
      (([⟨0, Except.error TransportErr.connectionError⟩,
        ⟨1, Except.ok goodHtml⟩] : List TaskEnv)[0].page =
          Except.error TransportErr.connectionError) ∧
      (extract_movie_details (([⟨0, Except.error TransportErr.connectionError⟩,
        ⟨1, Except.ok goodHtml⟩] : List TaskEnv)[0]) = Except.error PyErr.transportError ∧
      (runPool [⟨0, Except.error TransportErr.connectionError⟩,
        ⟨1, Except.ok goodHtml⟩])[0]? = some none ∧
      ∀ j : Nat, (runPool [⟨0, Except.error TransportErr.connectionError⟩,
        ⟨1, Except.ok goodHtml⟩])[j]? =
        (([⟨0, Except.error TransportErr.connectionError⟩,
          ⟨1, Except.ok goodHtml⟩] : List TaskEnv)[j]?).map taskOutcome) :=
  ⟨by decide, rfl,
    transport_failure_isolated _ 0 TransportErr.connectionError (by decide) rfl⟩

/-- C8: extraction is a pure, deterministic function of the fetched markup:
two task runs whose GET returned the same page yield the same result,
independent of the pacing jitter. -/
theorem extraction_pure (e1 e2 : TaskEnv) (h : e1.page = e2.page) :
    extract_movie_details e1 = extract_movie_details e2 := by
  unfold extract_movie_details
  rw [h]

/-- Witness for C8: identical markup under different jitter values. -/
theorem extraction_pure_witness :
    ({ delay := 0, page := Except.ok goodHtml } : TaskEnv).page =
        ({ delay := 199, page := Except.ok goodHtml } : TaskEnv).page ∧
      extract_movie_details { delay := 0, page := Except.ok goodHtml } =
        extract_movie_details { delay := 199, page := Except.ok goodHtml } :=
  ⟨rfl, extraction_pure _ _ rfl⟩

/-- C4: the worker count the source computes is `min(MAX_THREADS, L)` with
`MAX_THREADS = 100`, and no reachable pool state runs more than
`min(100, L)` fetches concurrently. -/
theorem pool_concurrency_bound (soup : Node) (links : List String) (threads : Nat)
    (hrun : extract_movies soup = Except.ok (links, threads))
    (s : PoolState) (hs : Reaches threads links.length s) :
    MAX_THREADS = 100 ∧ s.running.card ≤ min 100 links.length := by
  refine ⟨rfl, ?_⟩
  have hth : threads = min 100 links.length := by
    unfold extract_movies at hrun
    split at hrun
    · cases hrun
    · dsimp only at hrun
      split at hrun
      · cases hrun
      · simp only [Except.ok.injEq, Prod.mk.injEq] at hrun
        obtain ⟨hl, ht⟩ := hrun
        subst hl
        subst ht
        rfl
  exact hth ▸ reaches_card_le threads links.length s hs

/-- Witness for C4 at the three-item seed and the idle pool state. -/
theorem pool_concurrency_bound_witness :
    extract_movies threeItemHtml = Except.ok (links3, 3) ∧
      (MAX_THREADS = 100 ∧
        (⟨∅, ∅⟩ : PoolState).running.card ≤ min 100 links3.length) :=
  ⟨by rfl, pool_concurrency_bound threeItemHtml links3 3 (by rfl) ⟨∅, ∅⟩ Reaches.init⟩

end Scraper
